import Mathlib

/-!
Shallow embedding of the mcp-google-map core services (RoutesService and
TextSearchService) together with proofs of the specification's claims about
them.

JavaScript numbers are modelled as exact rationals (`ℚ`), with `NaN` modelled
as `none` in an `Option` where it can arise (duration parsing).  Absent JSON
fields are modelled as `none`; JavaScript's truthiness-based `||` defaulting is
modelled by the `jsOr*` helpers, and `??` by `Option.getD`.  HTTP calls are
modelled by passing the transport outcome (network error / HTTP error with the
parsed error body / parsed success payload) as an explicit argument, so each
service method becomes a pure function from its request and the wire outcome to
`Except String result`, where `Except.error` stands for a thrown `Error` whose
message is the carried string.
-/

/-- JavaScript `x || y` for an optional string `x`: the empty string is falsy,
so it also falls through to the default. -/
def jsOrStr (x : Option String) (y : String) : String :=
  match x with
  | some s => if s = "" then y else s
  | none => y

/-- JavaScript `x || y` for an optional number `x`: `0` is falsy, so it also
falls through to the default. -/
def jsOrNum (x : Option ℚ) (y : ℚ) : ℚ :=
  match x with
  | some v => if v = 0 then y else v
  | none => y

/-- JavaScript `x || y` for an optional integer `x` (`0` falsy). -/
def jsOrInt (x : Option Int) (y : Int) : Int :=
  match x with
  | some v => if v = 0 then y else v
  | none => y

/-- Addition of JavaScript numbers where `none` stands for `NaN` (which is
absorbing for `+`). -/
def optAddInt (a b : Option Int) : Option Int :=
  match a, b with
  | some x, some y => some (x + y)
  | _, _ => none

/-- Characters matched by the character class `[0-9.]` of the duration
regex. -/
def isNumChar (c : Char) : Bool := c.isDigit || c = '.'

/-- Leftmost match of the regular expression `([0-9.]+)s`, returning the
captured group.  At a given start position the greedy run of `[0-9.]`
characters can only be followed by `s` at its very end (an `s` is never a
`[0-9.]` character), so the backtracking search reduces to: return the first
position whose maximal `[0-9.]` run is nonempty and is immediately followed by
`'s'`. -/
def firstDurationToken : List Char → Option (List Char)
  | [] => none
  | c :: cs =>
      let run := List.takeWhile isNumChar (c :: cs)
      if run ≠ [] ∧ ((c :: cs).drop run.length).head? = some 's' then some run
      else firstDurationToken cs

/-- Numeric value of a list of decimal digit characters. -/
def digitsToNat (cs : List Char) : Nat :=
  cs.foldl (fun a c => a * 10 + (c.toNat - 48)) 0

/-- ECMAScript `parseFloat`, restricted to the strings the duration regex can
capture (nonempty strings of digits and dots).  `parseFloat` reads the longest
prefix that is a valid decimal literal: an integer part, optionally followed by
a dot and a fractional part; a string whose first character is a dot not
followed by a digit has no such prefix, giving `NaN` (modelled as `none`). -/
def parseFloatDigitsDot (cs : List Char) : Option ℚ :=
  let intPart := cs.takeWhile Char.isDigit
  let rest := cs.drop intPart.length
  if intPart = [] then
    match rest with
    | '.' :: r =>
        let frac := r.takeWhile Char.isDigit
        if frac = [] then none
        else some ((digitsToNat frac : ℚ) / (10 : ℚ) ^ frac.length)
    | _ => none
  else
    match rest with
    | '.' :: r =>
        let frac := r.takeWhile Char.isDigit
        some ((digitsToNat intPart : ℚ) + (digitsToNat frac : ℚ) / (10 : ℚ) ^ frac.length)
    | _ => some (digitsToNat intPart : ℚ)

/-- JavaScript `Math.round`: round to the nearest integer, ties toward
positive infinity, i.e. `⌊x + 1/2⌋`. -/
def jsRound (q : ℚ) : Int := ⌊q + 1 / 2⌋

/-- Optimization criterion of a route request. -/
inductive OptimizeBy where
  | time
  | distance
deriving DecidableEq, Repr

/-- Input point of a route request (`RoutePointInput`). -/
structure RoutePointInput where
  lat : ℚ
  lng : ℚ
  label : Option String
deriving DecidableEq, Repr

/-- Argument of `RoutesService.optimizeRoute` (`OptimizeRouteParams`). -/
structure OptimizeRouteParams where
  origin : RoutePointInput
  destination : RoutePointInput
  waypoints : List RoutePointInput
  optimizeBy : OptimizeBy
  departureTime : Option String
deriving DecidableEq, Repr

/-- Labelled point of the result's `ordered` sequence. -/
structure OrderedPoint where
  label : String
  lat : ℚ
  lng : ℚ
deriving DecidableEq, Repr

/-- One leg of the optimized route, as returned to the caller. -/
structure RouteLeg where
  start_label : String
  end_label : String
  distance_meters : ℚ
  duration_seconds : Option Int
deriving DecidableEq, Repr

/-- Provenance tag of an `OptimizeRouteResult`; the source serializes these as
the strings "routes_preferred" and "directions_fallback". -/
inductive RouteSource where
  | routes_preferred
  | directions_fallback
deriving DecidableEq, Repr

/-- Result shape of `RoutesService.optimizeRoute` (`OptimizeRouteResult`). -/
structure OptimizeRouteResult where
  polyline : String
  ordered : List OrderedPoint
  distance_meters : ℚ
  duration_seconds : Option Int
  legs : List RouteLeg
  source : RouteSource
deriving DecidableEq, Repr

/-- One leg of a Routes Preferred API route: the fields read by `mapLegs`. -/
structure RoutesApiLeg where
  distanceMeters : Option ℚ
  duration : Option String
deriving DecidableEq, Repr

/-- One route of a Routes Preferred API payload: the fields the source reads
(`encodedPolyline` flattens the optional chain `route.polyline?.encodedPolyline`). -/
structure RoutesApiRoute where
  distanceMeters : Option ℚ
  duration : Option String
  encodedPolyline : Option String
  optimizedIntermediateWaypointIndex : Option (List Nat)
  legs : Option (List RoutesApiLeg)
deriving DecidableEq, Repr

/-- Parsed JSON body of a successful Routes Preferred API response. -/
structure RoutesPayload where
  routes : Option (List RoutesApiRoute)
deriving DecidableEq, Repr

/-- Wire outcome of the preferred-backend `fetch`: a rejected promise, a
non-ok HTTP response (carrying the `error.message` of its body when `safeParse`
finds one), or an ok response whose body parses to a payload (`none` when
`response.json()` rejects). -/
inductive PreferredOutcome where
  | networkError (message : String)
  | httpError (status : Nat) (statusText : String) (errorMessage : Option String)
  | okResponse (payload : Option RoutesPayload)
deriving DecidableEq, Repr

namespace RoutesService

/-- Default label for position `index` of `total` ordered points
(`RoutesService.defaultLabel`). -/
def defaultLabel (index total : Nat) : String :=
  if index = 0 then "Origin"
  else if index = total - 1 then "Destination"
  else "Stop " ++ toString index

/-- Labelled point for the result (`RoutesService.normalizePoint`). -/
def normalizePoint (point : RoutePointInput) (index total : Nat) : OrderedPoint :=
  { label := jsOrStr point.label (defaultLabel index total)
    lat := point.lat
    lng := point.lng }

/-- Index-carrying recursion for `orderedPoints.map((point, idx) =>
normalizePoint(point, idx, orderedPoints.length))`. -/
def normalizeAllAux (total : Nat) : Nat → List RoutePointInput → List OrderedPoint
  | _, [] => []
  | idx, p :: rest => normalizePoint p idx total :: normalizeAllAux total (idx + 1) rest

/-- The result's `ordered` list: every point labelled with its index. -/
def normalizeAll (pts : List RoutePointInput) : List OrderedPoint :=
  normalizeAllAux pts.length 0 pts

/-- Placeholder for the JavaScript `undefined` produced by indexing an empty
`orderedPoints` array; unreachable at every call site (`orderedPoints` always
contains at least origin and destination). -/
def undefinedPoint : RoutePointInput := { lat := 0, lng := 0, label := none }

/-- Duration parsing (`RoutesService.parseDurationSeconds`): a falsy
(absent, null or empty) duration is 0; otherwise run the regex
`([0-9.]+)s`, returning 0 when it does not match, else
`Math.round(parseFloat(capture))` (`none` = `NaN`). -/
def parseDurationSeconds (duration : Option String) : Option Int :=
  match duration with
  | none => some 0
  | some d =>
      if d = "" then some 0
      else
        match firstDurationToken d.data with
        | none => some 0
        | some cap => (parseFloatDigitsDot cap).map jsRound

/-- Body of the `legsFromApi.map((leg, idx) => ...)` inside
`RoutesService.mapLegs`: `orderedPoints[idx] || orderedPoints[0]` reads as
"entry `idx` when in range, else the first entry", and likewise
`orderedPoints[idx + 1] || orderedPoints[orderedPoints.length - 1]` clamps to
the last entry. -/
def buildLeg (orderedPoints : List RoutePointInput) (idx : Nat) (leg : RoutesApiLeg) : RouteLeg :=
  let startPoint := (orderedPoints.get? idx).getD (orderedPoints.headD undefinedPoint)
  let endPoint := (orderedPoints.get? (idx + 1)).getD (orderedPoints.getLastD undefinedPoint)
  { start_label := (normalizePoint startPoint idx orderedPoints.length).label
    end_label := (normalizePoint endPoint (idx + 1) orderedPoints.length).label
    distance_meters := jsOrNum leg.distanceMeters 0
    duration_seconds := parseDurationSeconds leg.duration }

/-- Index-carrying recursion for the `legsFromApi.map((leg, idx) => ...)` of
`RoutesService.mapLegs`. -/
def mapLegsAux (orderedPoints : List RoutePointInput) : Nat → List RoutesApiLeg → List RouteLeg
  | _, [] => []
  | idx, leg :: rest => buildLeg orderedPoints idx leg :: mapLegsAux orderedPoints (idx + 1) rest

/-- Leg assembly (`RoutesService.mapLegs`). -/
def mapLegs (legsFromApi : List RoutesApiLeg) (orderedPoints : List RoutePointInput) : List RouteLeg :=
  mapLegsAux orderedPoints 0 legsFromApi

/-- Sum of the legs' distances (`RoutesService.sumDistances`). -/
def sumDistances (legs : List RouteLeg) : ℚ :=
  legs.foldl (fun sum leg => sum + leg.distance_meters) 0

/-- The lookup `optimizedOrder.map((idx) => waypoints[idx])`: `none` models
the `TypeError` thrown downstream when some index is out of range (the JS
lookup yields `undefined` and `normalizePoint` then dereferences it). -/
def selectWaypoints (waypoints : List RoutePointInput) : List Nat → Option (List RoutePointInput)
  | [] => some []
  | idx :: rest =>
      match waypoints.get? idx, selectWaypoints waypoints rest with
      | some p, some ps => some (p :: ps)
      | _, _ => none

/-- Preferred branch (`RoutesService.computeRoutesPreferred`), as a function of
the request and the wire outcome of its single `fetch`. -/
def computeRoutesPreferred (params : OptimizeRouteParams) (outcome : PreferredOutcome) :
    Except String OptimizeRouteResult :=
  match outcome with
  | .networkError message => .error message
  | .httpError status statusText errorMessage =>
      .error ("Routes Preferred API error: " ++ jsOrStr errorMessage statusText ++
        " (HTTP " ++ toString status ++ ")")
  | .okResponse none => .error "Routes Preferred API response body was not valid JSON"
  | .okResponse (some payload) =>
      match payload.routes.getD [] with
      | [] => .error "Routes Preferred API returned no routes"
      | route :: _ =>
          let optimizedOrder :=
            route.optimizedIntermediateWaypointIndex.getD (List.range params.waypoints.length)
          match selectWaypoints params.waypoints optimizedOrder with
          | none => .error "TypeError: cannot read properties of undefined"
          | some orderedWaypoints =>
              let orderedPoints := params.origin :: orderedWaypoints ++ [params.destination]
              let legs := mapLegs (route.legs.getD []) orderedPoints
              .ok
                { polyline := jsOrStr route.encodedPolyline ""
                  ordered := normalizeAll orderedPoints
                  distance_meters := jsOrNum route.distanceMeters (sumDistances legs)
                  duration_seconds := parseDurationSeconds route.duration
                  legs := legs
                  source := .routes_preferred }

end RoutesService

/-- One leg of a Directions API route: the fields the fallback branch reads,
with the optional chains `leg.distance?.value`, `leg.duration?.value` and
`leg.duration_in_traffic?.value` flattened to one optional field each. -/
structure DirectionsApiLeg where
  distanceValue : Option ℚ
  durationValue : Option Int
  durationInTrafficValue : Option Int
deriving DecidableEq, Repr

/-- One route of a Directions API payload: the fields the source reads
(`overviewPolylinePoints` flattens `route.overview_polyline?.points`). -/
structure DirectionsApiRoute where
  overviewPolylinePoints : Option String
  waypoint_order : Option (List Nat)
  legs : Option (List DirectionsApiLeg)
deriving DecidableEq, Repr

/-- Parsed JSON body of a successful Directions API response. -/
structure DirectionsPayload where
  status : Option String
  routes : Option (List DirectionsApiRoute)
deriving DecidableEq, Repr

/-- Wire outcome of the fallback-backend `fetch`.  The non-ok case carries the
`error.message` of the response body when present, even though the source never
reads it (it builds its error from the status line alone); carrying it lets the
claims about surfaced messages be stated. -/
inductive FallbackOutcome where
  | networkError (message : String)
  | httpError (status : Nat) (statusText : String) (errorMessage : Option String)
  | okResponse (payload : Option DirectionsPayload)
deriving DecidableEq, Repr

namespace RoutesService

/-- Fallback branch (`RoutesService.computeDirectionsFallback`), as a function
of the request and the wire outcome of its single `fetch`. -/
def computeDirectionsFallback (params : OptimizeRouteParams) (outcome : FallbackOutcome) :
    Except String OptimizeRouteResult :=
  match outcome with
  | .networkError message => .error message
  | .httpError status statusText _ =>
      .error ("Directions API HTTP error " ++ toString status ++ ": " ++ statusText)
  | .okResponse none => .error "Directions API response body was not valid JSON"
  | .okResponse (some payload) =>
      if payload.status = some "OK" then
        match payload.routes.getD [] with
        | [] => .error ("Directions API error: " ++ jsOrStr payload.status "UNKNOWN")
        | route :: _ =>
            let waypointOrder := route.waypoint_order.getD (List.range params.waypoints.length)
            match selectWaypoints params.waypoints waypointOrder with
            | none => .error "TypeError: cannot read properties of undefined"
            | some orderedWaypoints =>
                let orderedPoints := params.origin :: orderedWaypoints ++ [params.destination]
                let legsFromApi := (route.legs.getD []).map fun leg =>
                  ({ distanceMeters := some (jsOrNum leg.distanceValue 0)
                     duration := some (toString
                       (jsOrInt leg.durationInTrafficValue (jsOrInt leg.durationValue 0)) ++ "s")
                   } : RoutesApiLeg)
                let legs := mapLegs legsFromApi orderedPoints
                let totalDistance := legs.foldl (fun sum leg => sum + leg.distance_meters) 0
                let totalDuration := legs.foldl (fun sum leg => optAddInt sum leg.duration_seconds)
                  (some 0)
                .ok
                  { polyline := jsOrStr route.overviewPolylinePoints ""
                    ordered := normalizeAll orderedPoints
                    distance_meters := totalDistance
                    duration_seconds := totalDuration
                    legs := legs
                    source := .directions_fallback }
      else .error ("Directions API error: " ++ jsOrStr payload.status "UNKNOWN")

end RoutesService

/-- Record of one outbound backend invocation made while serving an
`optimizeRoute` call, with the request it was given. -/
inductive BackendCall where
  | preferred (params : OptimizeRouteParams)
  | fallback (params : OptimizeRouteParams)
deriving DecidableEq, Repr

namespace RoutesService

/-- Entry point (`RoutesService.optimizeRoute`): try the preferred branch and
on any thrown error log it and return the fallback branch's result instead.
The second component records which backends were invoked and with which
request. -/
def optimizeRouteTraced (params : OptimizeRouteParams) (pref : PreferredOutcome)
    (fb : FallbackOutcome) : Except String OptimizeRouteResult × List BackendCall :=
  match computeRoutesPreferred params pref with
  | .ok result => (.ok result, [.preferred params])
  | .error _ => (computeDirectionsFallback params fb, [.preferred params, .fallback params])

/-- The value `optimizeRoute` returns to (or the error it raises at) its
caller. -/
def optimizeRoute (params : OptimizeRouteParams) (pref : PreferredOutcome)
    (fb : FallbackOutcome) : Except String OptimizeRouteResult :=
  (optimizeRouteTraced params pref fb).1

end RoutesService

/-- The `{latitude?, longitude?}` objects of a raw place's `location` and of
the `viewport` corners. -/
structure LatLngFields where
  latitude : Option ℚ
  longitude : Option ℚ
deriving DecidableEq, Repr

/-- A raw place's `viewport` object. -/
structure RawViewport where
  low : Option LatLngFields
  high : Option LatLngFields
deriving DecidableEq, Repr

/-- A raw place's `displayName` object. -/
structure RawDisplayName where
  text : Option String
deriving DecidableEq, Repr

/-- Raw place of a Places text-search payload (`RawPlace`). -/
structure RawPlace where
  name : Option String
  id : Option String
  displayName : Option RawDisplayName
  formattedAddress : Option String
  location : Option LatLngFields
  types : Option (List String)
  viewport : Option RawViewport
deriving DecidableEq, Repr

/-- Candidate returned by the text search (`TextSearchCandidate`). -/
structure TextSearchCandidate where
  place_id : String
  name : String
  formatted_address : String
  lat : ℚ
  lng : ℚ
  types : List String
  is_area : Bool
deriving DecidableEq, Repr

/-- Result of the text search (`TextSearchResult`). -/
structure TextSearchResult where
  resolved : Bool
  candidates : List TextSearchCandidate
deriving DecidableEq, Repr

/-- Parsed JSON body of a successful Places text-search response. -/
structure PlacesPayload where
  places : Option (List RawPlace)
deriving DecidableEq, Repr

/-- Wire outcome of the text-search `fetch`, shaped like `PreferredOutcome`:
the non-ok case carries the `error.message` found by `safeParseJson` when the
body has one. -/
inductive SearchOutcome where
  | networkError (message : String)
  | httpError (status : Nat) (statusText : String) (errorMessage : Option String)
  | okResponse (payload : Option PlacesPayload)
deriving DecidableEq, Repr

/-- Whether `pat` is an initial segment of `cs`. -/
def charListHasPrefix : List Char → List Char → Bool
  | [], _ => true
  | _ :: _, [] => false
  | p :: ps, c :: cs => p = c && charListHasPrefix ps cs

/-- Whether `needle` occurs contiguously inside `hay`: the semantics of
JavaScript `hay.includes(needle)`. -/
def charListContains (hay needle : List Char) : Bool :=
  charListHasPrefix needle hay ||
    match hay with
    | [] => false
    | _ :: rest => charListContains rest needle

/-- JavaScript `s.includes(pat)`. -/
def jsIncludes (s pat : String) : Bool := charListContains s.data pat.data

/-- JavaScript `s.startsWith(pat)`. -/
def jsStartsWith (s pat : String) : Bool := charListHasPrefix pat.data s.data

namespace TextSearchService

/-- The fixed area-indicating substrings of `TextSearchService.isArea`. -/
def areaTokens : List String :=
  ["administrative_area_level", "locality", "sublocality", "postal_code",
   "country", "plus_code", "colloquial_area", "neighborhood", "political"]

/-- The `matchesType` test of `TextSearchService.isArea`: some type tag
contains an area token as a substring. -/
def matchesType (types : List String) : Bool :=
  types.any fun type => areaTokens.any fun token => jsIncludes type token

/-- The viewport test of `TextSearchService.isArea`: both corners present, and
either axis span (with absent corner coordinates read as 0 by `?? 0`) exceeds
0.05 degrees. -/
def viewportLarge (viewport : Option RawViewport) : Bool :=
  match viewport with
  | some vp =>
      match vp.low, vp.high with
      | some low, some high =>
          let latSpan := |high.latitude.getD 0 - low.latitude.getD 0|
          let lngSpan := |high.longitude.getD 0 - low.longitude.getD 0|
          if latSpan > (0.05 : ℚ) ∨ lngSpan > (0.05 : ℚ) then true else false
      | _, _ => false
  | none => false

/-- Area classification (`TextSearchService.isArea`): the `matchesType` test
returns early, else the viewport test decides. -/
def isArea (types : List String) (viewport : Option RawViewport) : Bool :=
  if matchesType types then true else viewportLarge viewport

/-- Identifier extraction (`TextSearchService.extractPlaceId`): when the
resource name starts with `"places/"`, `name.replace("places/", "")` removes
the first (here: leading) occurrence, i.e. drops the 7-character prefix;
otherwise `place.id || ""`. -/
def extractPlaceId (place : RawPlace) : String :=
  match place.name with
  | some n => if jsStartsWith n "places/" then String.mk (n.data.drop 7) else jsOrStr place.id ""
  | none => jsOrStr place.id ""

/-- Candidate derivation (`TextSearchService.transformCandidate`) for the raw
place at 0-based position `index`. -/
def transformCandidate (place : RawPlace) (index : Nat) : TextSearchCandidate :=
  let lat := (place.location.bind fun loc => loc.latitude).getD 0
  let lng := (place.location.bind fun loc => loc.longitude).getD 0
  let types := place.types.getD []
  { place_id := extractPlaceId place
    name := jsOrStr (place.displayName.bind fun dn => dn.text)
      (jsOrStr place.name ("Candidate " ++ toString (index + 1)))
    formatted_address := jsOrStr place.formattedAddress ""
    lat := lat
    lng := lng
    types := types
    is_area := isArea types place.viewport }

/-- Index-carrying recursion for `places.map((place, index) =>
transformCandidate(place, index))`. -/
def transformAllAux : Nat → List RawPlace → List TextSearchCandidate
  | _, [] => []
  | index, place :: rest => transformCandidate place index :: transformAllAux (index + 1) rest

/-- The derived candidate list of a payload's places. -/
def transformAll (places : List RawPlace) : List TextSearchCandidate :=
  transformAllAux 0 places

/-- The `resolved` flag: `candidates.length === 1 && !candidates[0].is_area`. -/
def computeResolved (candidates : List TextSearchCandidate) : Bool :=
  match candidates with
  | [c] => !c.is_area
  | _ => false

/-- Text search (`TextSearchService.search`) as a function of the wire outcome
of its single `fetch`; the request side (query, clamped count, language) does
not influence the response handling and is omitted.  The catch-all of the
source logs and rethrows the same error, so each failure's message reaches the
caller unchanged. -/
def search (outcome : SearchOutcome) : Except String TextSearchResult :=
  match outcome with
  | .networkError message => .error message
  | .httpError status statusText errorMessage =>
      .error ("Places text search failed: " ++ jsOrStr errorMessage statusText ++
        " (HTTP " ++ toString status ++ ")")
  | .okResponse none => .error "Places text search response body was not valid JSON"
  | .okResponse (some payload) =>
      let places := payload.places.getD []
      let candidates := transformAll places
      .ok { resolved := computeResolved candidates, candidates := candidates }

end TextSearchService

/-- Coordinates of an input point, for statements about the ordered sequence
as a sequence of points. -/
def inputCoords (p : RoutePointInput) : ℚ × ℚ := (p.lat, p.lng)

/-- Coordinates of a labelled result point. -/
def orderedCoords (o : OrderedPoint) : ℚ × ℚ := (o.lat, o.lng)

/-- The specification's area condition, stated from its words: some type tag
contains one of the fixed area tokens as a substring (not necessarily as the
whole tag), or both corners of a bounding box are present and its latitude
span or longitude span (absent corner coordinates read as 0) exceeds 0.05
degrees. -/
def specIsArea (types : List String) (viewport : Option RawViewport) : Prop :=
  (∃ t ∈ types, ∃ tok ∈ TextSearchService.areaTokens,
    ∃ pre post, t.data = pre ++ tok.data ++ post) ∨
  (∃ vp low high, viewport = some vp ∧ vp.low = some low ∧ vp.high = some high ∧
    (|high.latitude.getD 0 - low.latitude.getD 0| > (0.05 : ℚ) ∨
     |high.longitude.getD 0 - low.longitude.getD 0| > (0.05 : ℚ)))

/-- Sample request taken from the repository's test suite. -/
def sampleOrigin : RoutePointInput := { lat := 1, lng := 2, label := some "Origin" }

/-- Sample destination of the test suite. -/
def sampleDestination : RoutePointInput := { lat := 4, lng := 5, label := some "Destination" }

/-- First sample waypoint of the test suite. -/
def sampleStopA : RoutePointInput := { lat := 2, lng := 3, label := some "Stop A" }

/-- Second sample waypoint of the test suite. -/
def sampleStopB : RoutePointInput := { lat := 3, lng := 4, label := some "Stop B" }

/-- Sample `optimizeRoute` request with the two test waypoints. -/
def sampleParams : OptimizeRouteParams :=
  { origin := sampleOrigin
    destination := sampleDestination
    waypoints := [sampleStopA, sampleStopB]
    optimizeBy := .time
    departureTime := some "now" }

/-- Sample request with no waypoints. -/
def noWaypointParams : OptimizeRouteParams :=
  { origin := sampleOrigin
    destination := sampleDestination
    waypoints := []
    optimizeBy := .time
    departureTime := none }

/-- Sample Routes Preferred route taken from the repository's test suite. -/
def samplePreferredRoute : RoutesApiRoute :=
  { distanceMeters := some 12000
    duration := some "800s"
    encodedPolyline := some "abc123"
    optimizedIntermediateWaypointIndex := some [1, 0]
    legs := some
      [{ distanceMeters := some 4000, duration := some "250s" },
       { distanceMeters := some 5000, duration := some "300s" },
       { distanceMeters := some 3000, duration := some "250s" }] }

/-- Sample Directions fallback route taken from the repository's test suite. -/
def sampleFallbackRoute : DirectionsApiRoute :=
  { overviewPolylinePoints := some "fallback"
    waypoint_order := some [1, 0]
    legs := some
      [{ distanceValue := some 3000, durationValue := none, durationInTrafficValue := some 200 },
       { distanceValue := some 4000, durationValue := none, durationInTrafficValue := some 250 },
       { distanceValue := some 5000, durationValue := none, durationInTrafficValue := some 300 }] }

/-- Sample raw place ("Cafe 123") taken from the repository's test suite. -/
def samplePlace : RawPlace :=
  { name := some "places/abc"
    id := none
    displayName := some { text := some "Cafe 123" }
    formattedAddress := some "123 Main St"
    location := some { latitude := some 1.1, longitude := some 2.2 }
    types := some ["point_of_interest", "establishment"]
    viewport := none }

/-- A raw place with every optional field absent. -/
def emptyPlace : RawPlace :=
  { name := none, id := none, displayName := none, formattedAddress := none,
    location := none, types := none, viewport := none }

/-! ## Helper lemmas -/

theorem charListHasPrefix_iff :
    ∀ (p c : List Char), charListHasPrefix p c = true ↔ ∃ rest, c = p ++ rest
  | [], c => by simp [charListHasPrefix]
  | p :: ps, [] => by simp [charListHasPrefix]
  | p :: ps, c :: cs => by
      rw [charListHasPrefix]
      simp only [Bool.and_eq_true, decide_eq_true_eq, charListHasPrefix_iff ps cs]
      constructor
      · rintro ⟨rfl, rest, rfl⟩
        exact ⟨rest, rfl⟩
      · rintro ⟨rest, h⟩
        injection h with h1 h2
        exact ⟨h1.symm, rest, h2⟩

theorem charListHasPrefix_append (p r : List Char) : charListHasPrefix p (p ++ r) = true :=
  (charListHasPrefix_iff p (p ++ r)).mpr ⟨r, rfl⟩

theorem charListContains_iff :
    ∀ (hay needle : List Char),
      charListContains hay needle = true ↔ ∃ pre post, hay = pre ++ needle ++ post
  | [], needle => by
      rw [charListContains]
      simp only [Bool.or_false, charListHasPrefix_iff]
      constructor
      · rintro ⟨rest, h⟩
        exact ⟨[], rest, h⟩
      · rintro ⟨pre, post, h⟩
        rcases List.append_eq_nil.mp h.symm with ⟨h1, h2⟩
        rcases List.append_eq_nil.mp h1 with ⟨h3, h4⟩
        exact ⟨[], by simp [h4]⟩
  | x :: xs, needle => by
      rw [charListContains]
      simp only [Bool.or_eq_true, charListHasPrefix_iff, charListContains_iff xs needle]
      constructor
      · rintro (⟨rest, h⟩ | ⟨pre, post, h⟩)
        · exact ⟨[], rest, h⟩
        · exact ⟨x :: pre, post, by simp [h]⟩
      · rintro ⟨pre, post, h⟩
        cases pre with
        | nil => exact Or.inl ⟨post, by simpa using h⟩
        | cons y ys =>
            injection h with h1 h2
            exact Or.inr ⟨ys, post, h2⟩

theorem charListContains_append_middle (a b c : List Char) :
    charListContains (a ++ b ++ c) b = true :=
  (charListContains_iff _ _).mpr ⟨a, c, rfl⟩

theorem computeResolved_iff (l : List TextSearchCandidate) :
    TextSearchService.computeResolved l = true ↔ ∃ c, l = [c] ∧ c.is_area = false := by
  cases l with
  | nil => simp [TextSearchService.computeResolved]
  | cons a t =>
      cases t with
      | nil => simp [TextSearchService.computeResolved]
      | cons b u => simp [TextSearchService.computeResolved]

/-! ## Claims -/

/-- C5: for every `TextSearchResult` returned by `search`, `resolved` is true
iff the candidate list contains exactly one candidate and that candidate's
`is_area` flag is false; and a search whose single returned candidate is not
classified as an area yields `resolved = true`. -/
theorem claim_C5 :
    (∀ (outcome : SearchOutcome) (result : TextSearchResult),
        TextSearchService.search outcome = .ok result →
        (result.resolved = true ↔ ∃ c, result.candidates = [c] ∧ c.is_area = false)) ∧
    (∀ place : RawPlace,
        TextSearchService.isArea (place.types.getD []) place.viewport = false →
        ∃ result,
          TextSearchService.search (.okResponse (some { places := some [place] })) = .ok result ∧
            result.resolved = true) := by
  constructor
  · intro outcome result h
    cases outcome with
    | networkError m => exact absurd h (by simp [TextSearchService.search])
    | httpError a b c => exact absurd h (by simp [TextSearchService.search])
    | okResponse payload =>
        cases payload with
        | none => exact absurd h (by simp [TextSearchService.search])
        | some pl =>
            simp only [TextSearchService.search, Except.ok.injEq] at h
            subst h
            exact computeResolved_iff _
  · intro place h
    refine ⟨_, rfl, ?_⟩
    simp [TextSearchService.search, TextSearchService.transformAll,
      TextSearchService.transformAllAux, TextSearchService.computeResolved,
      TextSearchService.transformCandidate, h]

/-- Witness for C5 at the test suite's single precise candidate. -/
theorem claim_C5_witness :
    (∃ result,
        TextSearchService.search (.okResponse (some { places := some [samplePlace] })) =
          .ok result ∧ result.resolved = true) ∧
    (({ resolved := true,
        candidates := [TextSearchService.transformCandidate samplePlace 0] } :
          TextSearchResult).resolved = true ↔
      ∃ c, [TextSearchService.transformCandidate samplePlace 0] = [c] ∧ c.is_area = false) := by
  constructor
  · exact claim_C5.2 samplePlace (by decide)
  · exact claim_C5.1 (.okResponse (some { places := some [samplePlace] })) _ rfl

/-- C10: an HTTP-ok place-search response whose places list is absent or empty
returns `{resolved := false, candidates := []}` rather than an error, while
the preferred route branch raises an error on an empty or absent route list. -/
theorem claim_C10 :
    TextSearchService.search (.okResponse (some { places := none })) =
      .ok { resolved := false, candidates := [] } ∧
    TextSearchService.search (.okResponse (some { places := some [] })) =
      .ok { resolved := false, candidates := [] } ∧
    (∀ params : OptimizeRouteParams,
        RoutesService.computeRoutesPreferred params (.okResponse (some { routes := some [] })) =
          .error "Routes Preferred API returned no routes") ∧
    (∀ params : OptimizeRouteParams,
        RoutesService.computeRoutesPreferred params (.okResponse (some { routes := none })) =
          .error "Routes Preferred API returned no routes") :=
  ⟨rfl, rfl, fun _ => rfl, fun _ => rfl⟩

theorem matchesType_iff (types : List String) :
    TextSearchService.matchesType types = true ↔
      ∃ t ∈ types, ∃ tok ∈ TextSearchService.areaTokens,
        ∃ pre post, t.data = pre ++ tok.data ++ post := by
  simp [TextSearchService.matchesType, List.any_eq_true, jsIncludes, charListContains_iff]

theorem viewportLarge_iff (viewport : Option RawViewport) :
    TextSearchService.viewportLarge viewport = true ↔
      ∃ vp low high, viewport = some vp ∧ vp.low = some low ∧ vp.high = some high ∧
        (|high.latitude.getD 0 - low.latitude.getD 0| > (0.05 : ℚ) ∨
         |high.longitude.getD 0 - low.longitude.getD 0| > (0.05 : ℚ)) := by
  cases viewport with
  | none => simp [TextSearchService.viewportLarge]
  | some vp =>
      obtain ⟨low?, high?⟩ := vp
      cases low? with
      | none => simp [TextSearchService.viewportLarge]
      | some low =>
          cases high? with
          | none => simp [TextSearchService.viewportLarge]
          | some high =>
              by_cases h :
                  |high.latitude.getD 0 - low.latitude.getD 0| > (0.05 : ℚ) ∨
                    |high.longitude.getD 0 - low.longitude.getD 0| > (0.05 : ℚ)
              · simp [TextSearchService.viewportLarge, h]
              · simp [TextSearchService.viewportLarge, h]

theorem isArea_eq_or (types : List String) (viewport : Option RawViewport) :
    TextSearchService.isArea types viewport =
      (TextSearchService.matchesType types || TextSearchService.viewportLarge viewport) := by
  cases h : TextSearchService.matchesType types with
  | false => simp [TextSearchService.isArea, h]
  | true => simp [TextSearchService.isArea, h]

/-- C6: a candidate is an area iff some type tag contains one of the fixed
area tokens as a substring, or a bounding box is present whose latitude or
longitude span exceeds 0.05 degrees; each condition alone is sufficient (a
"locality" type tag regardless of viewport, and a wide viewport with no
area-indicating type). -/
theorem claim_C6 :
    (∀ (types : List String) (viewport : Option RawViewport),
        TextSearchService.isArea types viewport = true ↔ specIsArea types viewport) ∧
    (∀ viewport : Option RawViewport,
        TextSearchService.isArea ["locality"] viewport = true) ∧
    (∀ (types : List String) (low high : LatLngFields),
        (|high.latitude.getD 0 - low.latitude.getD 0| > (0.05 : ℚ) ∨
         |high.longitude.getD 0 - low.longitude.getD 0| > (0.05 : ℚ)) →
        TextSearchService.isArea types (some { low := some low, high := some high }) = true) := by
  refine ⟨?_, ?_, ?_⟩
  · intro types viewport
    rw [isArea_eq_or, specIsArea, Bool.or_eq_true, matchesType_iff, viewportLarge_iff]
  · intro viewport
    rw [isArea_eq_or, Bool.or_eq_true]
    left
    exact (matchesType_iff _).mpr
      ⟨"locality", by simp, "locality", by simp [TextSearchService.areaTokens], [], [], rfl⟩
  · intro types low high h
    rw [isArea_eq_or, Bool.or_eq_true]
    right
    exact (viewportLarge_iff _).mpr ⟨_, low, high, rfl, rfl, rfl, h⟩

/-- Witness for C6: "locality" alone, and a 3-degree viewport span alone, are
each classified as an area. -/
theorem claim_C6_witness :
    TextSearchService.isArea ["locality"] none = true ∧
    TextSearchService.isArea []
      (some { low := some { latitude := some 2, longitude := some 3 },
              high := some { latitude := some 5, longitude := some 6 } }) = true := by
  constructor
  · exact claim_C6.2.1 none
  · exact claim_C6.2.2 [] { latitude := some 2, longitude := some 3 }
      { latitude := some 5, longitude := some 6 } (by left; norm_num)

/-- C7: candidate derivation: identifier strips the `"places/"` prefix from
the resource name when present, else uses the raw id; display name prefers
the structured display-name text, then the raw name, else a synthesized
`"Candidate {1-based index}"`; address defaults to the empty string,
coordinates to (0,0), and the type tag set to empty. -/
theorem claim_C7 (place : RawPlace) (index : Nat) :
    (∀ rest : List Char, place.name = some (String.mk ("places/".data ++ rest)) →
        (TextSearchService.transformCandidate place index).place_id = String.mk rest) ∧
    (∀ i : String, place.name = none → place.id = some i → i ≠ "" →
        (TextSearchService.transformCandidate place index).place_id = i) ∧
    (∀ n i : String, place.name = some n → jsStartsWith n "places/" = false →
        place.id = some i → i ≠ "" →
        (TextSearchService.transformCandidate place index).place_id = i) ∧
    (∀ t : String, place.displayName = some { text := some t } → t ≠ "" →
        (TextSearchService.transformCandidate place index).name = t) ∧
    (∀ n : String, place.displayName = none → place.name = some n → n ≠ "" →
        (TextSearchService.transformCandidate place index).name = n) ∧
    (place.displayName = none → place.name = none →
        (TextSearchService.transformCandidate place index).name =
          "Candidate " ++ toString (index + 1)) ∧
    (place.formattedAddress = none →
        (TextSearchService.transformCandidate place index).formatted_address = "") ∧
    (place.location = none →
        (TextSearchService.transformCandidate place index).lat = 0 ∧
        (TextSearchService.transformCandidate place index).lng = 0) ∧
    (place.types = none → (TextSearchService.transformCandidate place index).types = []) := by
  refine ⟨?_, ?_, ?_, ?_, ?_, ?_, ?_, ?_, ?_⟩
  · intro rest h
    have hpre : jsStartsWith (String.mk ("places/".data ++ rest)) "places/" = true := by
      simpa [jsStartsWith] using charListHasPrefix_append "places/".data rest
    simp only [TextSearchService.transformCandidate, TextSearchService.extractPlaceId, h, hpre,
      if_true]
    simp
  · intro i hn hi hne
    simp [TextSearchService.transformCandidate, TextSearchService.extractPlaceId, hn, hi,
      jsOrStr, hne]
  · intro n i hn hpre hi hne
    simp [TextSearchService.transformCandidate, TextSearchService.extractPlaceId, hn, hpre, hi,
      jsOrStr, hne]
  · intro t ht htne
    simp [TextSearchService.transformCandidate, ht, jsOrStr, htne]
  · intro n hd hn hne
    simp [TextSearchService.transformCandidate, hd, hn, jsOrStr, hne]
  · intro hd hn
    simp [TextSearchService.transformCandidate, hd, hn, jsOrStr]
  · intro h
    simp [TextSearchService.transformCandidate, h, jsOrStr]
  · intro h
    simp [TextSearchService.transformCandidate, h]
  · intro h
    simp [TextSearchService.transformCandidate, h]

/-- Witness for C7: the spec's two identifier examples, the synthesized
display name, and the coordinate defaults, at concrete places. -/
theorem claim_C7_witness :
    (TextSearchService.transformCandidate samplePlace 0).place_id = "abc" ∧
    (TextSearchService.transformCandidate { emptyPlace with id := some "xyz" } 0).place_id =
      "xyz" ∧
    (TextSearchService.transformCandidate emptyPlace 4).name = "Candidate 5" ∧
    (TextSearchService.transformCandidate emptyPlace 0).lat = 0 ∧
    (TextSearchService.transformCandidate emptyPlace 0).types = [] := by
  refine ⟨?_, ?_, ?_, ?_, ?_⟩
  · exact (claim_C7 samplePlace 0).1 "abc".data rfl
  · exact (claim_C7 { emptyPlace with id := some "xyz" } 0).2.1 "xyz" rfl rfl (by decide)
  · exact (claim_C7 emptyPlace 4).2.2.2.2.2.1 rfl rfl
  · exact ((claim_C7 emptyPlace 0).2.2.2.2.2.2.2.1 rfl).1
  · exact (claim_C7 emptyPlace 0).2.2.2.2.2.2.2.2 rfl

theorem mapLegsAux_length (pts : List RoutePointInput) :
    ∀ (legs : List RoutesApiLeg) (start : Nat),
      (RoutesService.mapLegsAux pts start legs).length = legs.length
  | [], _ => rfl
  | leg :: rest, start => by
      rw [RoutesService.mapLegsAux]
      simp [mapLegsAux_length pts rest (start + 1)]

theorem mapLegsAux_get? (pts : List RoutePointInput) :
    ∀ (legs : List RoutesApiLeg) (start idx : Nat),
      (RoutesService.mapLegsAux pts start legs).get? idx =
        (legs.get? idx).map fun leg => RoutesService.buildLeg pts (start + idx) leg
  | [], start, idx => by simp [RoutesService.mapLegsAux]
  | leg :: rest, start, 0 => by simp [RoutesService.mapLegsAux]
  | leg :: rest, start, idx + 1 => by
      rw [RoutesService.mapLegsAux]
      simp only [List.get?_cons_succ]
      rw [mapLegsAux_get? pts rest (start + 1) idx]
      simp [Nat.add_assoc, Nat.one_add]

/-- C9: leg assembly is total for a backend leg list of any length: the output
has one leg per input leg, an out-of-range start index is clamped to the first
ordered point and an out-of-range end index to the last, and a leg's missing
distance or duration defaults to 0. -/
theorem claim_C9 (legsFromApi : List RoutesApiLeg) (orderedPoints : List RoutePointInput)
    (hne : orderedPoints ≠ []) :
    (RoutesService.mapLegs legsFromApi orderedPoints).length = legsFromApi.length ∧
    ∀ idx leg, legsFromApi.get? idx = some leg →
      (RoutesService.mapLegs legsFromApi orderedPoints).get? idx =
          some (RoutesService.buildLeg orderedPoints idx leg) ∧
        (orderedPoints.length ≤ idx →
          (RoutesService.buildLeg orderedPoints idx leg).start_label =
            (RoutesService.normalizePoint (orderedPoints.headD RoutesService.undefinedPoint) idx
              orderedPoints.length).label) ∧
        (orderedPoints.length ≤ idx + 1 →
          (RoutesService.buildLeg orderedPoints idx leg).end_label =
            (RoutesService.normalizePoint (orderedPoints.getLastD RoutesService.undefinedPoint)
              (idx + 1) orderedPoints.length).label) ∧
        (leg.distanceMeters = none →
          (RoutesService.buildLeg orderedPoints idx leg).distance_meters = 0) ∧
        (leg.duration = none →
          (RoutesService.buildLeg orderedPoints idx leg).duration_seconds = some 0) := by
  constructor
  · exact mapLegsAux_length orderedPoints legsFromApi 0
  · intro idx leg h
    refine ⟨?_, ?_, ?_, ?_, ?_⟩
    · rw [RoutesService.mapLegs, mapLegsAux_get? orderedPoints legsFromApi 0 idx, h]
      simp
    · intro hle
      have hnone : orderedPoints[idx]? = none := List.getElem?_eq_none hle
      simp [RoutesService.buildLeg, hnone]
    · intro hle
      have hnone : orderedPoints[idx + 1]? = none := List.getElem?_eq_none hle
      simp [RoutesService.buildLeg, hnone]
    · intro hd
      simp [RoutesService.buildLeg, hd, jsOrNum]
    · intro hd
      simp [RoutesService.buildLeg, hd, RoutesService.parseDurationSeconds]

/-- Witness for C9: three backend legs against only two ordered points; the
third leg's out-of-range indices clamp and its missing fields default to 0. -/
theorem claim_C9_witness :
    (RoutesService.mapLegs
        [{ distanceMeters := none, duration := none },
         { distanceMeters := none, duration := none },
         { distanceMeters := none, duration := none }]
        [sampleOrigin, sampleDestination]).length = 3 ∧
    (RoutesService.buildLeg [sampleOrigin, sampleDestination] 2
        { distanceMeters := none, duration := none }).start_label =
      (RoutesService.normalizePoint
        ([sampleOrigin, sampleDestination].headD RoutesService.undefinedPoint) 2 2).label ∧
    (RoutesService.buildLeg [sampleOrigin, sampleDestination] 2
        { distanceMeters := none, duration := none }).distance_meters = 0 ∧
    (RoutesService.buildLeg [sampleOrigin, sampleDestination] 2
        { distanceMeters := none, duration := none }).duration_seconds = some 0 := by
  have h := claim_C9
    [{ distanceMeters := none, duration := none },
     { distanceMeters := none, duration := none },
     { distanceMeters := none, duration := none }]
    [sampleOrigin, sampleDestination] (by decide)
  have h2 := h.2 2 { distanceMeters := none, duration := none } rfl
  exact ⟨h.1, h2.2.1 (by decide), h2.2.2.2.1 rfl, h2.2.2.2.2 rfl⟩

theorem normalizeAllAux_coords :
    ∀ (pts : List RoutePointInput) (total idx : Nat),
      (RoutesService.normalizeAllAux total idx pts).map orderedCoords = pts.map inputCoords
  | [], _, _ => rfl
  | p :: rest, total, idx => by
      rw [RoutesService.normalizeAllAux]
      simp [normalizeAllAux_coords rest total (idx + 1), orderedCoords, inputCoords,
        RoutesService.normalizePoint]

theorem normalizeAll_coords (pts : List RoutePointInput) :
    (RoutesService.normalizeAll pts).map orderedCoords = pts.map inputCoords :=
  normalizeAllAux_coords pts pts.length 0

theorem selectWaypoints_eq_getD (w : List RoutePointInput) (d : RoutePointInput) :
    ∀ order : List Nat, (∀ i ∈ order, i < w.length) →
      RoutesService.selectWaypoints w order = some (order.map fun i => w.getD i d)
  | [], _ => rfl
  | idx :: rest, h => by
      have h1 : idx < w.length := h idx (List.mem_cons_self idx rest)
      have hrec := selectWaypoints_eq_getD w d rest fun i hi => h i (List.mem_cons_of_mem idx hi)
      rw [RoutesService.selectWaypoints, List.get?_eq_get h1, hrec]
      simp [List.getD_eq_getElem?_getD, List.getElem?_eq_getElem h1]

theorem map_getD_range (w : List RoutePointInput) (d : RoutePointInput) :
    (List.range w.length).map (fun i => w.getD i d) = w := by
  apply List.ext_get
  · simp
  · intro i h1 h2
    simp [List.getD_eq_getElem?_getD, List.getElem?_eq_getElem h2]

theorem selectWaypoints_range (w : List RoutePointInput) (d : RoutePointInput) :
    RoutesService.selectWaypoints w (List.range w.length) = some w := by
  rw [selectWaypoints_eq_getD w d (List.range w.length) (by simp), map_getD_range w d]

/-- C2: the result's ordered point sequence is origin, the waypoints permuted
by the backend's index sequence, then destination; with no index sequence in
the response, the original waypoint order is kept.  Stated for both the
preferred branch (`optimizedIntermediateWaypointIndex`) and the fallback
branch (`waypoint_order`), on the sequence of coordinates. -/
theorem claim_C2 :
    (∀ (params : OptimizeRouteParams) (route : RoutesApiRoute) (rest : List RoutesApiRoute)
        (p : List Nat), route.optimizedIntermediateWaypointIndex = some p →
        (∀ i ∈ p, i < params.waypoints.length) →
        (RoutesService.computeRoutesPreferred params
            (.okResponse (some { routes := some (route :: rest) }))).map
            (fun r => r.ordered.map orderedCoords) =
          .ok ((params.origin ::
            ((p.map fun i => params.waypoints.getD i params.origin) ++
              [params.destination])).map inputCoords)) ∧
    (∀ (params : OptimizeRouteParams) (route : RoutesApiRoute) (rest : List RoutesApiRoute),
        route.optimizedIntermediateWaypointIndex = none →
        (RoutesService.computeRoutesPreferred params
            (.okResponse (some { routes := some (route :: rest) }))).map
            (fun r => r.ordered.map orderedCoords) =
          .ok ((params.origin :: (params.waypoints ++ [params.destination])).map inputCoords)) ∧
    (∀ (params : OptimizeRouteParams) (route : DirectionsApiRoute)
        (rest : List DirectionsApiRoute) (p : List Nat), route.waypoint_order = some p →
        (∀ i ∈ p, i < params.waypoints.length) →
        (RoutesService.computeDirectionsFallback params
            (.okResponse (some { status := some "OK", routes := some (route :: rest) }))).map
            (fun r => r.ordered.map orderedCoords) =
          .ok ((params.origin ::
            ((p.map fun i => params.waypoints.getD i params.origin) ++
              [params.destination])).map inputCoords)) ∧
    (∀ (params : OptimizeRouteParams) (route : DirectionsApiRoute)
        (rest : List DirectionsApiRoute), route.waypoint_order = none →
        (RoutesService.computeDirectionsFallback params
            (.okResponse (some { status := some "OK", routes := some (route :: rest) }))).map
            (fun r => r.ordered.map orderedCoords) =
          .ok ((params.origin :: (params.waypoints ++ [params.destination])).map
            inputCoords)) := by
  refine ⟨?_, ?_, ?_, ?_⟩
  · intro params route rest p hp hvalid
    rw [RoutesService.computeRoutesPreferred]
    simp only [hp, Option.getD_some]
    rw [selectWaypoints_eq_getD params.waypoints params.origin p hvalid]
    simp [Except.map, normalizeAll_coords]
  · intro params route rest hp
    rw [RoutesService.computeRoutesPreferred]
    simp only [hp, Option.getD_some, Option.getD_none]
    rw [selectWaypoints_range params.waypoints params.origin]
    simp [Except.map, normalizeAll_coords]
  · intro params route rest p hp hvalid
    rw [RoutesService.computeDirectionsFallback]
    simp only [hp, Option.getD_some]
    rw [selectWaypoints_eq_getD params.waypoints params.origin p hvalid]
    simp [Except.map, normalizeAll_coords]
  · intro params route rest hp
    rw [RoutesService.computeDirectionsFallback]
    simp only [hp, Option.getD_some, Option.getD_none, if_true]
    rw [selectWaypoints_range params.waypoints params.origin]
    simp [Except.map, normalizeAll_coords]

/-- Witness for C2: with waypoints `[A, B]` and index sequence `[1, 0]` the
ordered coordinates are origin, B, A, destination. -/
theorem claim_C2_witness :
    (RoutesService.computeRoutesPreferred sampleParams
        (.okResponse (some { routes := some [samplePreferredRoute] }))).map
        (fun r => r.ordered.map orderedCoords) =
      .ok [inputCoords sampleOrigin, inputCoords sampleStopB, inputCoords sampleStopA,
        inputCoords sampleDestination] :=
  claim_C2.1 sampleParams samplePreferredRoute [] [1, 0] rfl (by decide)

/-- C3: `optimizeRoute` raises an error only when both branches fail; any
preferred-branch failure (network error, HTTP error, unparseable body, empty
route list) triggers exactly one fallback invocation with the identical
request, and the fallback's outcome — value or error — is returned unchanged,
with no further call. -/
theorem claim_C3 (params : OptimizeRouteParams) (pref : PreferredOutcome)
    (fb : FallbackOutcome) :
    ((RoutesService.optimizeRoute params pref fb).isOk = true ↔
      (RoutesService.computeRoutesPreferred params pref).isOk = true ∨
        (RoutesService.computeDirectionsFallback params fb).isOk = true) ∧
    (∀ e, RoutesService.computeRoutesPreferred params pref = .error e →
      RoutesService.optimizeRoute params pref fb =
          RoutesService.computeDirectionsFallback params fb ∧
        (RoutesService.optimizeRouteTraced params pref fb).2 =
          [.preferred params, .fallback params]) ∧
    (∀ r, RoutesService.computeRoutesPreferred params pref = .ok r →
      RoutesService.optimizeRoute params pref fb = .ok r ∧
        (RoutesService.optimizeRouteTraced params pref fb).2 = [.preferred params]) ∧
    (∀ m, (RoutesService.computeRoutesPreferred params (.networkError m)).isOk = false) ∧
    (∀ (st : Nat) (stx : String) (em : Option String),
      (RoutesService.computeRoutesPreferred params (.httpError st stx em)).isOk = false) ∧
    ((RoutesService.computeRoutesPreferred params (.okResponse none)).isOk = false) ∧
    ((RoutesService.computeRoutesPreferred params
        (.okResponse (some { routes := some [] }))).isOk = false) := by
  refine ⟨?_, ?_, ?_, ?_, ?_, ?_, ?_⟩
  · cases h : RoutesService.computeRoutesPreferred params pref with
    | ok r =>
        simp [RoutesService.optimizeRoute, RoutesService.optimizeRouteTraced, h, Except.isOk,
          Except.toBool]
    | error e =>
        simp [RoutesService.optimizeRoute, RoutesService.optimizeRouteTraced, h, Except.isOk,
          Except.toBool]
  · intro e he
    simp [RoutesService.optimizeRoute, RoutesService.optimizeRouteTraced, he]
  · intro r hr
    simp [RoutesService.optimizeRoute, RoutesService.optimizeRouteTraced, hr]
  · intro m
    simp [RoutesService.computeRoutesPreferred, Except.isOk, Except.toBool]
  · intro st stx em
    simp [RoutesService.computeRoutesPreferred, Except.isOk, Except.toBool]
  · simp [RoutesService.computeRoutesPreferred, Except.isOk, Except.toBool]
  · simp [RoutesService.computeRoutesPreferred, Except.isOk, Except.toBool]

/-- Witness for C3 at the test suite's scenario: the preferred branch fails
with HTTP 500 and the fallback's result is returned, after exactly one
fallback call with the same request. -/
theorem claim_C3_witness :
    RoutesService.optimizeRoute sampleParams (.httpError 500 "Server Error" (some "boom"))
        (.okResponse (some { status := some "OK", routes := some [sampleFallbackRoute] })) =
      RoutesService.computeDirectionsFallback sampleParams
        (.okResponse (some { status := some "OK", routes := some [sampleFallbackRoute] })) ∧
    (RoutesService.optimizeRouteTraced sampleParams (.httpError 500 "Server Error" (some "boom"))
        (.okResponse (some { status := some "OK", routes := some [sampleFallbackRoute] }))).2 =
      [.preferred sampleParams, .fallback sampleParams] :=
  (claim_C3 sampleParams (.httpError 500 "Server Error" (some "boom"))
      (.okResponse (some { status := some "OK", routes := some [sampleFallbackRoute] }))).2.1
    "Routes Preferred API error: boom (HTTP 500)" rfl

/-- C1 counterexample: a preferred response whose route carries no `legs`
field still succeeds, with `legs.length = 0` while `ordered.length - 1 = 1`,
so the claimed invariant `legs.length == ordered.length - 1` does not hold for
every backend response shape. -/
theorem claim_C1_counterexample :
    (RoutesService.computeRoutesPreferred noWaypointParams
        (.okResponse (some
          { routes := some
              [{ distanceMeters := none, duration := none, encodedPolyline := none,
                 optimizedIntermediateWaypointIndex := none, legs := none }] }))).map
        (fun r => (r.legs.length, r.ordered.length, r.source)) =
      .ok (0, 2, .routes_preferred) ∧
    (0 : Nat) ≠ 2 - 1 := by
  constructor
  · rfl
  · decide

/-- C1 (amended): every successful preferred result carries the preferred
source tag, and for either backend the result has exactly one leg per leg of
the backend's route — so `legs.length = ordered.length - 1` holds exactly when
the backend supplies one leg per consecutive pair of ordered points, not for
every response shape. -/
theorem claim_C1_amended :
    (∀ (params : OptimizeRouteParams) (outcome : PreferredOutcome) (r : OptimizeRouteResult),
        RoutesService.computeRoutesPreferred params outcome = .ok r →
        r.source = .routes_preferred) ∧
    (∀ (params : OptimizeRouteParams) (route : RoutesApiRoute) (rest : List RoutesApiRoute)
        (r : OptimizeRouteResult),
        RoutesService.computeRoutesPreferred params
            (.okResponse (some { routes := some (route :: rest) })) = .ok r →
        r.legs.length = (route.legs.getD []).length ∧
        ((route.legs.getD []).length = r.ordered.length - 1 →
          r.legs.length = r.ordered.length - 1)) ∧
    (∀ (params : OptimizeRouteParams) (route : DirectionsApiRoute)
        (rest : List DirectionsApiRoute) (st : Option String) (r : OptimizeRouteResult),
        RoutesService.computeDirectionsFallback params
            (.okResponse (some { status := st, routes := some (route :: rest) })) = .ok r →
        r.source = .directions_fallback ∧
        r.legs.length = (route.legs.getD []).length) := by
  refine ⟨?_, ?_, ?_⟩
  · intro params outcome r h
    cases outcome with
    | networkError m => exact absurd h (by simp [RoutesService.computeRoutesPreferred])
    | httpError a b c => exact absurd h (by simp [RoutesService.computeRoutesPreferred])
    | okResponse payload =>
        cases payload with
        | none => exact absurd h (by simp [RoutesService.computeRoutesPreferred])
        | some pl =>
            obtain ⟨routes?⟩ := pl
            cases routes? with
            | none => exact absurd h (by simp [RoutesService.computeRoutesPreferred])
            | some routes =>
                cases routes with
                | nil => exact absurd h (by simp [RoutesService.computeRoutesPreferred])
                | cons route rest =>
                    rw [RoutesService.computeRoutesPreferred] at h
                    simp only [Option.getD_some] at h
                    cases hsel : RoutesService.selectWaypoints params.waypoints
                        (route.optimizedIntermediateWaypointIndex.getD
                          (List.range params.waypoints.length)) with
                    | none => rw [hsel] at h; exact absurd h (by simp)
                    | some sel =>
                        rw [hsel] at h
                        obtain rfl := Except.ok.inj h
                        rfl
  · intro params route rest r h
    rw [RoutesService.computeRoutesPreferred] at h
    simp only [Option.getD_some] at h
    cases hsel : RoutesService.selectWaypoints params.waypoints
        (route.optimizedIntermediateWaypointIndex.getD
          (List.range params.waypoints.length)) with
    | none => rw [hsel] at h; exact absurd h (by simp)
    | some sel =>
        rw [hsel] at h
        obtain rfl := Except.ok.inj h
        exact ⟨mapLegsAux_length _ _ 0, fun hm => (mapLegsAux_length _ _ 0).trans hm⟩
  · intro params route rest st r h
    rw [RoutesService.computeDirectionsFallback] at h
    by_cases hst : st = some "OK"
    · subst hst
      simp only [if_pos rfl, Option.getD_some] at h
      cases hsel : RoutesService.selectWaypoints params.waypoints
          (route.waypoint_order.getD (List.range params.waypoints.length)) with
      | none => rw [hsel] at h; exact absurd h (by simp)
      | some sel =>
          rw [hsel] at h
          obtain rfl := Except.ok.inj h
          exact ⟨rfl, (mapLegsAux_length _ _ 0).trans (List.length_map _ _)⟩
    · rw [if_neg hst] at h
      exact absurd h (by simp)

/-- Witness for C1 (amended) at the test suite's preferred response: the
source tag is the preferred one and there is one result leg per backend leg. -/
theorem claim_C1_amended_witness :
    (RoutesService.computeRoutesPreferred sampleParams
        (.okResponse (some { routes := some [samplePreferredRoute] }))).map
        (fun r => (r.source, r.legs.length)) = .ok (.routes_preferred, 3) := by
  cases hr : RoutesService.computeRoutesPreferred sampleParams
      (.okResponse (some { routes := some [samplePreferredRoute] })) with
  | error e =>
      have hok : (RoutesService.computeRoutesPreferred sampleParams
          (.okResponse (some { routes := some [samplePreferredRoute] }))).isOk = true := rfl
      rw [hr] at hok
      simp [Except.isOk, Except.toBool] at hok
  | ok r =>
      have h1 := claim_C1_amended.1 _ _ _ hr
      have h2 := (claim_C1_amended.2.1 sampleParams samplePreferredRoute [] r hr).1
      simp [Except.map, h1, h2, samplePreferredRoute]

theorem takeWhile_all (p : Char → Bool) :
    ∀ l : List Char, (∀ c ∈ l, p c = true) → l.takeWhile p = l
  | [], _ => rfl
  | a :: l, h => by
      rw [List.takeWhile_cons, if_pos (h a (List.mem_cons_self a l))]
      rw [takeWhile_all p l fun c hc => h c (List.mem_cons_of_mem a hc)]

theorem takeWhile_append_eq (p : Char → Bool) :
    ∀ l1 l2 : List Char, (∀ c ∈ l1, p c = true) →
      (∀ c, l2.head? = some c → p c = false) → (l1 ++ l2).takeWhile p = l1
  | [], [], _, _ => rfl
  | [], c :: cs, _, h2 => by
      rw [List.nil_append, List.takeWhile_cons, if_neg (by simp [h2 c rfl])]
  | a :: l1, l2, h1, h2 => by
      rw [List.cons_append, List.takeWhile_cons, if_pos (h1 a (List.mem_cons_self a l1))]
      rw [takeWhile_append_eq p l1 l2 (fun c hc => h1 c (List.mem_cons_of_mem a hc)) h2]

theorem firstDurationToken_of_numRun (run tail : List Char) (hrun : run ≠ [])
    (hnum : ∀ c ∈ run, isNumChar c = true) :
    firstDurationToken (run ++ 's' :: tail) = some run := by
  obtain ⟨c, cs, rfl⟩ : ∃ c cs, run = c :: cs := by
    cases run with
    | nil => exact absurd rfl hrun
    | cons c cs => exact ⟨c, cs, rfl⟩
  have ht : ((c :: cs) ++ 's' :: tail).takeWhile isNumChar = c :: cs :=
    takeWhile_append_eq isNumChar (c :: cs) ('s' :: tail) hnum
      (by intro x hx; injection hx with hx; rw [← hx]; decide)
  rw [List.cons_append, firstDurationToken]
  rw [← List.cons_append, ht]
  rw [if_pos ⟨List.cons_ne_nil c cs, by rw [List.drop_left]; rfl⟩]

theorem jsRound_natCast (n : ℕ) : jsRound (n : ℚ) = n := by
  rw [jsRound, Int.floor_eq_iff] <;> push_cast <;> constructor <;> norm_num

/-- C4 (amended): a duration string that is a decimal numeral (digits, or
digits dot digits) followed by `s` parses to the numeral's value rounded to
the nearest whole second; a missing or null duration, and any string the
regex `([0-9.]+)s` does not match, parse to 0.  (A matched token consisting
only of dots — see the counterexample — parses to `NaN` instead of 0.) -/
theorem claim_C4_amended :
    (∀ ds : List Char, ds ≠ [] → (∀ c ∈ ds, c.isDigit = true) →
        RoutesService.parseDurationSeconds (some (String.mk (ds ++ ['s']))) =
          some (jsRound (digitsToNat ds : ℚ))) ∧
    (∀ ds fs : List Char, ds ≠ [] → fs ≠ [] → (∀ c ∈ ds, c.isDigit = true) →
        (∀ c ∈ fs, c.isDigit = true) →
        RoutesService.parseDurationSeconds (some (String.mk (ds ++ '.' :: fs ++ ['s']))) =
          some (jsRound ((digitsToNat ds : ℚ) +
            (digitsToNat fs : ℚ) / (10 : ℚ) ^ fs.length))) ∧
    RoutesService.parseDurationSeconds none = some 0 ∧
    RoutesService.parseDurationSeconds (some "") = some 0 ∧
    (∀ d : String, firstDurationToken d.data = none →
        RoutesService.parseDurationSeconds (some d) = some 0) := by
  have hnum : ∀ c : Char, c.isDigit = true → isNumChar c = true := by
    intro c hc
    simp [isNumChar, hc]
  refine ⟨?_, ?_, rfl, rfl, ?_⟩
  · intro ds hne hds
    have hsne : String.mk (ds ++ ['s']) ≠ "" := by
      intro hcontra
      have := congrArg String.data hcontra
      simp at this
    rw [RoutesService.parseDurationSeconds, if_neg hsne]
    have htok : firstDurationToken (ds ++ ['s']) = some ds :=
      firstDurationToken_of_numRun ds [] hne fun c hc => hnum c (hds c hc)
    rw [show (String.mk (ds ++ ['s'])).data = ds ++ ['s'] from rfl, htok]
    simp only [parseFloatDigitsDot, takeWhile_all Char.isDigit ds hds, if_neg hne,
      List.drop_length]
    rfl
  · intro ds fs hdne hfne hds hfs
    have hsne : String.mk (ds ++ '.' :: fs ++ ['s']) ≠ "" := by
      intro hcontra
      have := congrArg String.data hcontra
      simp at this
    rw [RoutesService.parseDurationSeconds, if_neg hsne]
    have hrun : ∀ c ∈ ds ++ '.' :: fs, isNumChar c = true := by
      intro c hc
      rcases List.mem_append.mp hc with hc | hc
      · exact hnum c (hds c hc)
      · rcases List.mem_cons.mp hc with rfl | hc
        · decide
        · exact hnum c (hfs c hc)
    have htok : firstDurationToken ((ds ++ '.' :: fs) ++ 's' :: []) =
        some (ds ++ '.' :: fs) :=
      firstDurationToken_of_numRun (ds ++ '.' :: fs) []
        (by simp [List.append_ne_nil_of_left_ne_nil, hdne]) hrun
    rw [show (String.mk (ds ++ '.' :: fs ++ ['s'])).data =
      (ds ++ '.' :: fs) ++ 's' :: [] from by simp, htok]
    have hint : (ds ++ '.' :: fs).takeWhile Char.isDigit = ds :=
      takeWhile_append_eq Char.isDigit ds ('.' :: fs) hds
        (by intro x hx; injection hx with hx; rw [← hx]; decide)
    simp only [parseFloatDigitsDot, hint, if_neg hdne, List.drop_left]
    rw [takeWhile_all Char.isDigit fs hfs]
    rfl
  · intro d hmatch
    by_cases hd : d = ""
    · simp [RoutesService.parseDurationSeconds, hd]
    · simp [RoutesService.parseDurationSeconds, hd, hmatch]

/-- C4 counterexample: the duration string ".s" is matched by the regex (the
captured token is "."), and `parseFloat(".")` is `NaN`, so the code returns
`NaN` (modelled `none`) rather than the 0 the claim requires for an
unparseable duration. -/
theorem claim_C4_counterexample :
    RoutesService.parseDurationSeconds (some ".s") = none ∧
    RoutesService.parseDurationSeconds (some ".s") ≠ some 0 := by
  constructor
  · rfl
  · decide

/-- Witness for C4: "800s" parses to 800. -/
theorem claim_C4_witness :
    RoutesService.parseDurationSeconds (some "800s") = some 800 := by
  have h := claim_C4_amended.1 ['8', '0', '0'] (by decide) (by decide)
  rw [show "800s" = String.mk (['8', '0', '0'] ++ ['s']) from rfl]
  rw [h, show digitsToNat ['8', '0', '0'] = 800 from rfl, jsRound_natCast 800]
  rfl

/-- C8 counterexample: a fallback Directions response of HTTP 403 whose body
carries `error.message = "API key invalid"` surfaces an error built from the
status line only; the provider's message is not contained in it. -/
theorem claim_C8_counterexample :
    RoutesService.computeDirectionsFallback noWaypointParams
        (.httpError 403 "Forbidden" (some "API key invalid")) =
      .error "Directions API HTTP error 403: Forbidden" ∧
    charListContains "Directions API HTTP error 403: Forbidden".data
      "API key invalid".data = false := by
  constructor
  · rfl
  · decide

/-- C8 (amended): the place-search error and the preferred branch's (caught,
non-surfaced) error carry the provider's body message when present, else the
status text, plus the HTTP status code — in particular the 403 body message
"API key invalid" is contained in the surfaced place-search error; but the
surfaced fallback-routing HTTP error carries only the status code and status
text, ignoring any provider body message, and the fallback's non-OK
status-field error carries the provider's status token (defaulting to
"UNKNOWN" when the field is falsy) with no HTTP code. -/
theorem claim_C8_amended (st : Nat) (stx m : String) (em : Option String)
    (params : OptimizeRouteParams) :
    (m ≠ "" → TextSearchService.search (.httpError st stx (some m)) =
        .error ("Places text search failed: " ++ m ++ " (HTTP " ++ toString st ++ ")")) ∧
    (TextSearchService.search (.httpError st stx none) =
        .error ("Places text search failed: " ++ stx ++ " (HTTP " ++ toString st ++ ")")) ∧
    (∀ msg, TextSearchService.search (.httpError st stx (some m)) = .error msg → m ≠ "" →
        charListContains msg.data m.data = true) ∧
    (m ≠ "" → RoutesService.computeRoutesPreferred params (.httpError st stx (some m)) =
        .error ("Routes Preferred API error: " ++ m ++ " (HTTP " ++ toString st ++ ")")) ∧
    (RoutesService.computeDirectionsFallback params (.httpError st stx em) =
        .error ("Directions API HTTP error " ++ toString st ++ ": " ++ stx)) ∧
    (∀ pl : DirectionsPayload, pl.status ≠ some "OK" →
        RoutesService.computeDirectionsFallback params (.okResponse (some pl)) =
          .error ("Directions API error: " ++ jsOrStr pl.status "UNKNOWN")) := by
  have h1 : ∀ m' : String, m' ≠ "" →
      TextSearchService.search (.httpError st stx (some m')) =
        .error ("Places text search failed: " ++ m' ++ " (HTTP " ++ toString st ++ ")") := by
    intro m' hm'
    simp [TextSearchService.search, jsOrStr, hm']
  refine ⟨h1 m, ?_, ?_, ?_, rfl, ?_⟩
  · simp [TextSearchService.search, jsOrStr]
  · intro msg hmsg hm
    rw [h1 m hm] at hmsg
    obtain rfl := Except.error.inj hmsg
    apply (charListContains_iff _ _).mpr
    refine ⟨"Places text search failed: ".data,
      (" (HTTP " ++ toString st ++ ")").data, ?_⟩
    simp [String.data_append, List.append_assoc]
  · intro hm
    simp [RoutesService.computeRoutesPreferred, jsOrStr, hm]
  · intro pl hst
    rw [RoutesService.computeDirectionsFallback, if_neg hst]

/-- Witness for C8 (amended): the spec's 403 example on the place-search path
carries the provider message "API key invalid", and a fallback response with
status field "NOT_FOUND" surfaces that token with no HTTP code. -/
theorem claim_C8_amended_witness :
    TextSearchService.search (.httpError 403 "Forbidden" (some "API key invalid")) =
      .error ("Places text search failed: " ++ "API key invalid" ++ " (HTTP " ++
        toString (403 : Nat) ++ ")") ∧
    charListContains ("Places text search failed: " ++ "API key invalid" ++ " (HTTP " ++
        toString (403 : Nat) ++ ")").data "API key invalid".data = true ∧
    RoutesService.computeDirectionsFallback noWaypointParams
        (.okResponse (some { status := some "NOT_FOUND", routes := some [] })) =
      .error ("Directions API error: " ++ jsOrStr (some "NOT_FOUND") "UNKNOWN") := by
  have h := claim_C8_amended 403 "Forbidden" "API key invalid" none noWaypointParams
  exact ⟨h.1 (by decide), h.2.2.1 _ (h.1 (by decide)) (by decide),
    h.2.2.2.2.2 { status := some "NOT_FOUND", routes := some [] } (by decide)⟩
